import Mathlib

/-!
Verification of the gvfs inotify-helper / socket-input-stream core.

The definitions below are a shallow embedding of the two translation units
`src/gio/inotify/inotify-helper.c` and `src/gio/gsocketinputstream.c`.
External collaborators (the kernel watch adapter `_ip_*`, the missing-path
tracker `_im_*`, GLib's `g_file_test`, and the syscalls `poll`/`read`/`close`)
are modelled as explicit parameters or as effects on a small state record.
-/

/-! ## Inotify mask constants

These are the standard Linux inotify mask bits as declared in the repository
header `local_inotify.h` (the header itself is not part of the two core
translation units; the values are the fixed kernel ABI referenced by name in
the spec's mapping table). -/

def IN_ACCESS : Nat := 0x00000001

def IN_MODIFY : Nat := 0x00000002

def IN_ATTRIB : Nat := 0x00000004

def IN_CLOSE_WRITE : Nat := 0x00000008

def IN_CLOSE_NOWRITE : Nat := 0x00000010

def IN_OPEN : Nat := 0x00000020

def IN_MOVED_FROM : Nat := 0x00000040

def IN_MOVED_TO : Nat := 0x00000080

def IN_CREATE : Nat := 0x00000100

def IN_DELETE : Nat := 0x00000200

def IN_DELETE_SELF : Nat := 0x00000400

def IN_MOVE_SELF : Nat := 0x00000800

def IN_UNMOUNT : Nat := 0x00002000

def IN_Q_OVERFLOW : Nat := 0x00004000

def IN_IGNORED : Nat := 0x00008000

def IN_ISDIR : Nat := 0x40000000

/-! ## Event translator (`inotify-helper.c`) -/

/-- Domain events. The C function `ih_mask_to_EventFlags` has return type
`GDirectoryMonitorEvent` but returns `-1` in its default case; `NOOP` models
that out-of-enum sentinel value, distinct from every real event. -/
inductive GDirectoryMonitorEvent where
  | CHANGED
  | ATTRIBUTE_CHANGED
  | DELETED
  | CREATED
  | UNMOUNTED
  | NOOP
deriving DecidableEq, Repr

/-- Embedding of `ih_mask_to_EventFlags` (inotify-helper.c:224-258): clears
`IN_ISDIR` from the 32-bit mask, then switches on the exact remaining value. -/
def ih_mask_to_EventFlags (mask : Nat) : GDirectoryMonitorEvent :=
  let m := mask &&& (0xFFFFFFFF ^^^ IN_ISDIR)
  if m = IN_MODIFY then .CHANGED
  else if m = IN_ATTRIB then .ATTRIBUTE_CHANGED
  else if m = IN_MOVE_SELF ∨ m = IN_MOVED_FROM ∨ m = IN_DELETE ∨ m = IN_DELETE_SELF then .DELETED
  else if m = IN_CREATE ∨ m = IN_MOVED_TO then .CREATED
  else if m = IN_UNMOUNT then .UNMOUNTED
  else .NOOP

/-- The dynamic type of `sub->user_data`: the `G_IS_DIRECTORY_MONITOR` /
`G_IS_FILE_MONITOR` checks in the C code, with a third case for an object
satisfying neither capability. -/
inductive MonitorTarget where
  | dirMonitor
  | fileMonitor
  | neither
deriving DecidableEq, Repr

/-- One call to an emission entry point (`g_directory_monitor_emit_event` or
`g_file_monitor_emit_event`) with the child path and event flags passed. -/
inductive Emission where
  | dirEmit (child : String) (eflags : GDirectoryMonitorEvent)
  | fileEmit (child : String) (eflags : GDirectoryMonitorEvent)
deriving DecidableEq, Repr

/-- The `if (G_IS_DIRECTORY_MONITOR(...)) ... else if (G_IS_FILE_MONITOR(...))`
dispatch chain that appears verbatim in both `ih_event_callback`
(inotify-helper.c:163-174) and `ih_not_missing_callback`
(inotify-helper.c:208-217). Yields the list of emissions performed. -/
def monitor_dispatch (t : MonitorTarget) (child : String)
    (eflags : GDirectoryMonitorEvent) : List Emission :=
  match t with
  | .dirMonitor => [.dirEmit child eflags]
  | .fileMonitor => [.fileEmit child eflags]
  | .neither => []

/-- Raw kernel event `ik_event_t`: mask plus optional name. -/
structure ik_event where
  mask : Nat
  name : Option String
deriving DecidableEq, Repr

/-- Subscription record `inotify_sub` (fields used by inotify-helper.c). -/
structure inotify_sub where
  dirname : String
  filename : Option String
  cancelled : Bool
  user_data : MonitorTarget
deriving DecidableEq, Repr

/-- Embedding of `ih_event_callback` (inotify-helper.c:145-179). Maps the mask,
builds the child path (`dirname/name`, or `dirname/` when no name), and
dispatches unconditionally; the result is the list of emissions performed. -/
def ih_event_callback (event : ik_event) (sub : inotify_sub) : List Emission :=
  let eflags := ih_mask_to_EventFlags event.mask
  let fullpath :=
    match event.name with
    | some n => sub.dirname ++ "/" ++ n
    | none => sub.dirname ++ "/"
  monitor_dispatch sub.user_data fullpath eflags

/-- The `mask` local computed by `ih_not_missing_callback`
(inotify-helper.c:198,201): `IN_CREATE` when a filename filter is present,
`IN_CREATE|IN_ISDIR` when not. -/
def ih_not_missing_mask (sub : inotify_sub) : Nat :=
  match sub.filename with
  | some _ => IN_CREATE
  | none => IN_CREATE ||| IN_ISDIR

/-- Embedding of `ih_not_missing_callback` (inotify-helper.c:181-221).
`fsExists` models GLib's `g_file_test (path, G_FILE_TEST_EXISTS)`. In the
filtered branch the entry is re-checked and, if gone, the function returns
without emitting; otherwise a creation event is synthesized and dispatched
through the same monitor-dispatch chain as `ih_event_callback`. -/
def ih_not_missing_callback (fsExists : String → Bool) (sub : inotify_sub) : List Emission :=
  match sub.filename with
  | some fn =>
    let fullpath := sub.dirname ++ "/" ++ fn
    if fsExists fullpath = false then []
    else monitor_dispatch sub.user_data fullpath (ih_mask_to_EventFlags IN_CREATE)
  | none =>
    monitor_dispatch sub.user_data sub.dirname (ih_mask_to_EventFlags (IN_CREATE ||| IN_ISDIR))

/-! ## Theorems for the event translator -/

/-- C2: for every kernel mask value listed in the mapping table,
`ih_mask_to_EventFlags`, after stripping the is-directory flag, returns exactly
the listed domain event, and each mask in the ignored set yields the no-op
sentinel. -/
theorem c2_mask_to_EventFlags_table :
    (ih_mask_to_EventFlags IN_MODIFY = .CHANGED
      ∧ ih_mask_to_EventFlags (IN_MODIFY ||| IN_ISDIR) = .CHANGED)
    ∧ (ih_mask_to_EventFlags IN_ATTRIB = .ATTRIBUTE_CHANGED
      ∧ ih_mask_to_EventFlags (IN_ATTRIB ||| IN_ISDIR) = .ATTRIBUTE_CHANGED)
    ∧ (ih_mask_to_EventFlags IN_MOVE_SELF = .DELETED
      ∧ ih_mask_to_EventFlags (IN_MOVE_SELF ||| IN_ISDIR) = .DELETED)
    ∧ (ih_mask_to_EventFlags IN_MOVED_FROM = .DELETED
      ∧ ih_mask_to_EventFlags (IN_MOVED_FROM ||| IN_ISDIR) = .DELETED)
    ∧ (ih_mask_to_EventFlags IN_DELETE = .DELETED
      ∧ ih_mask_to_EventFlags (IN_DELETE ||| IN_ISDIR) = .DELETED)
    ∧ (ih_mask_to_EventFlags IN_DELETE_SELF = .DELETED
      ∧ ih_mask_to_EventFlags (IN_DELETE_SELF ||| IN_ISDIR) = .DELETED)
    ∧ (ih_mask_to_EventFlags IN_CREATE = .CREATED
      ∧ ih_mask_to_EventFlags (IN_CREATE ||| IN_ISDIR) = .CREATED)
    ∧ (ih_mask_to_EventFlags IN_MOVED_TO = .CREATED
      ∧ ih_mask_to_EventFlags (IN_MOVED_TO ||| IN_ISDIR) = .CREATED)
    ∧ (ih_mask_to_EventFlags IN_UNMOUNT = .UNMOUNTED
      ∧ ih_mask_to_EventFlags (IN_UNMOUNT ||| IN_ISDIR) = .UNMOUNTED)
    ∧ ih_mask_to_EventFlags IN_Q_OVERFLOW = .NOOP
    ∧ ih_mask_to_EventFlags IN_OPEN = .NOOP
    ∧ ih_mask_to_EventFlags IN_CLOSE_WRITE = .NOOP
    ∧ ih_mask_to_EventFlags IN_CLOSE_NOWRITE = .NOOP
    ∧ ih_mask_to_EventFlags IN_ACCESS = .NOOP
    ∧ ih_mask_to_EventFlags IN_IGNORED = .NOOP := by
  decide

/-- C1 (refutation): a raw event whose mask is in the ignored set (here
`IN_OPEN`, which maps to the no-op sentinel) is nevertheless dispatched by
`ih_event_callback` — the emission list is nonempty and carries the sentinel,
because the C code never checks `eflags` against `-1` before emitting. -/
theorem c1_ignored_mask_still_dispatched :
    ih_event_callback ⟨IN_OPEN, some "f"⟩ ⟨"/watched", none, false, .fileMonitor⟩
      = [Emission.fileEmit "/watched/f" .NOOP] := by
  decide

/-! ## Subscription registry (`_ih_startup`, `_ih_sub_add`, `_ih_sub_cancel`) -/

/-- The two C static locals of `_ih_startup` (inotify-helper.c:81-82):
`latched` models the static `initialized` flag, `result` the stored result. -/
structure StartupState where
  latched : Bool
  result : Bool
deriving DecidableEq, Repr

/-- Initial values of the static locals (`FALSE`, `FALSE`). -/
def startup_initial : StartupState := ⟨false, false⟩

/-- Collaborator calls and warnings performed by one `_ih_startup` invocation:
how often `_ip_startup`, `_im_startup`, `_id_startup` were called and how many
"Could not initialize inotify" warnings were printed. -/
structure StartupEffects where
  ip_startup_calls : Nat
  im_startup_calls : Nat
  id_startup_calls : Nat
  warnings : Nat
deriving DecidableEq, Repr

/-- Embedding of `_ih_startup` (inotify-helper.c:78-105). `ipResult` is the
return value the kernel watch adapter's `_ip_startup` would give on this call.
Returns the function result, the updated static state, and this call's
effects. -/
def _ih_startup (ipResult : Bool) (s : StartupState) : Bool × StartupState × StartupEffects :=
  if s.latched = true then (s.result, s, ⟨0, 0, 0, 0⟩)
  else if ipResult = false then (false, ⟨false, false⟩, ⟨1, 0, 0, 1⟩)
  else (true, ⟨true, true⟩, ⟨1, 1, 1, 0⟩)

/-- Per-subscription view of the registries: the subscription record itself,
whether the kernel watch adapter currently watches it, and whether the
missing-path tracker currently holds it. -/
structure SubEnv where
  sub : inotify_sub
  inWatchSet : Bool
  inMissingSet : Bool
deriving DecidableEq, Repr

/-- Modelled from the spec: the kernel watch adapter's `_ip_start_watching`
(inotify-path.c, not under src/) — on success the subscription enters the
kernel-watch set; on failure nothing changes. `ok` is the adapter's answer. -/
def _ip_start_watching (ok : Bool) (e : SubEnv) : Bool × SubEnv :=
  if ok then (true, { e with inWatchSet := true }) else (false, e)

/-- Modelled from the spec: the missing-path tracker's `_im_add`
(inotify-missing.c, not under src/) — registers the subscription with the
missing-path tracker. -/
def _im_add (e : SubEnv) : SubEnv := { e with inMissingSet := true }

/-- Modelled from the spec: the missing-path tracker's `_im_rm`
(inotify-missing.c, not under src/) — removes the subscription from the
missing-path tracker. -/
def _im_rm (e : SubEnv) : SubEnv := { e with inMissingSet := false }

/-- Modelled from the spec: the kernel watch adapter's `_ip_stop_watching`
(inotify-path.c, not under src/) — removes the subscription from the
kernel-watch set. -/
def _ip_stop_watching (e : SubEnv) : SubEnv := { e with inWatchSet := false }

/-- Embedding of `_ih_sub_add` (inotify-helper.c:110-122): tries
`_ip_start_watching`; if it fails, calls `_im_add`; returns TRUE either way. -/
def _ih_sub_add (ok : Bool) (e : SubEnv) : Bool × SubEnv :=
  let r := _ip_start_watching ok e
  if r.1 = false then (true, _im_add r.2) else (true, r.2)

/-- The observable sequence of mutations performed by `_ih_sub_cancel`. -/
inductive CancelOp where
  | setCancelled
  | imRm
  | ipStop
deriving DecidableEq, Repr

/-- Embedding of `_ih_sub_cancel` (inotify-helper.c:127-142): if not yet
cancelled, sets `cancelled = TRUE`, then calls `_im_rm`, then
`_ip_stop_watching`; otherwise does nothing. Returns TRUE, the updated state,
and the trace of mutations in program order. -/
def _ih_sub_cancel (e : SubEnv) : Bool × SubEnv × List CancelOp :=
  if e.sub.cancelled = false then
    let e1 : SubEnv := { e with sub := { e.sub with cancelled := true } }
    let e2 := _im_rm e1
    let e3 := _ip_stop_watching e2
    (true, e3, [CancelOp.setCancelled, CancelOp.imRm, CancelOp.ipStop])
  else
    (true, e, [])

/-- The data-model invariant on one subscription: a cancelled subscription is
present in neither the kernel-watch set nor the missing-path set. -/
def sub_invariant (e : SubEnv) : Prop :=
  e.sub.cancelled = true → e.inWatchSet = false ∧ e.inMissingSet = false

instance (e : SubEnv) : Decidable (sub_invariant e) := by
  unfold sub_invariant
  infer_instance

/-! ## Cancellable stream (`gsocketinputstream.c`) -/

/-- The errno value for interruption by a signal. -/
def EINTR : Nat := 4

/-- One syscall outcome as observed by the C code: a non-negative result, or
`-1` together with the `errno` value. -/
inductive SyscallRes where
  | ok (n : Nat)
  | err (e : Nat)
deriving DecidableEq, Repr

/-- The error kinds `g_socket_input_stream_read`/`close` can store in
`*error`: cancellation, or a `G_IO_ERROR` derived from an errno value. -/
inductive GErrorKind where
  | cancelledErr
  | ioFromErrno (e : Nat)
deriving DecidableEq, Repr

/-- Return state of the synchronous read: the value of the local `res` that is
returned (`none` models the path on which `res` is never assigned, i.e. the
uninitialized stack value), and the error stored in `*error`, if any. -/
structure ReadReturn where
  ret : Option Int
  gerror : Option GErrorKind
deriving DecidableEq, Repr

/-- Embedding of the `do { poll } while (poll_ret == -1 && errno == EINTR)`
phase (gsocketinputstream.c:138-146): consumes poll outcomes until one is not
an EINTR failure. `some none` = the wait succeeded; `some (some e)` = the wait
failed with errno `e`; `none` = the modelled outcome list ran out, i.e. the
call is still blocked in `poll`. -/
def poll_phase : List SyscallRes → Option (Option Nat)
  | [] => none
  | .err e :: rest => if e = EINTR then poll_phase rest else some (some e)
  | .ok _ :: _ => some none

/-- Embedding of the `while (1)` read loop (gsocketinputstream.c:158-175):
check cancellation, then one `read` syscall; retry on EINTR, surface any other
errno as an I/O error, return any non-negative count. `cancelled` is the
cancellation state observed by `g_cancellable_set_error_if_cancelled`;
`none` = the modelled outcome list ran out, i.e. still blocked in `read`. -/
def read_loop (cancelled : Bool) : List SyscallRes → Option ReadReturn
  | [] => if cancelled = true then some ⟨none, some .cancelledErr⟩ else none
  | r :: rest =>
    if cancelled = true then some ⟨none, some .cancelledErr⟩
    else
      match r with
      | .ok n => some ⟨some (n : Int), none⟩
      | .err e =>
        if e = EINTR then read_loop cancelled rest
        else some ⟨some (-1), some (.ioFromErrno e)⟩

/-- Embedding of `g_socket_input_stream_read` (gsocketinputstream.c:120-178).
`cancel_has_fd` is whether `g_cancellable_get_fd` returned a descriptor
(`!= -1`); `polls` and `reads` are the outcomes the kernel would hand the
`poll` and `read` syscalls in order. -/
def g_socket_input_stream_read (cancel_has_fd : Bool) (polls : List SyscallRes)
    (cancelled : Bool) (reads : List SyscallRes) : Option ReadReturn :=
  if cancel_has_fd = true then
    match poll_phase polls with
    | none => none
    | some (some e) => some ⟨some (-1), some (.ioFromErrno e)⟩
    | some none => read_loop cancelled reads
  else read_loop cancelled reads

/-- The private data of the stream (gsocketinputstream.c:22-25). -/
structure GSocketInputStreamPrivate where
  fd : Int
  close_fd_at_close : Bool
deriving DecidableEq, Repr

/-- Embedding of `g_socket_input_stream_close` (gsocketinputstream.c:180-208):
returns TRUE at once when `close_fd_at_close` is false; otherwise performs the
`close` syscall once, surfacing a failure as an I/O error. The result is
(returned boolean, error stored, number of `close` syscalls performed,
resulting private state). -/
def g_socket_input_stream_close (s : GSocketInputStreamPrivate) (closeRes : SyscallRes) :
    Bool × Option GErrorKind × Nat × GSocketInputStreamPrivate :=
  if s.close_fd_at_close = false then (true, none, 0, s)
  else
    match closeRes with
    | .ok _ => (true, none, 1, s)
    | .err e => (false, some (.ioFromErrno e), 1, s)

/-! ## Theorems for the subscription registry -/

/-- C4 (amended): `_ih_startup` latches only on success. A latched state makes
every later call return the stored result with no collaborator calls and no
warning; an unlatched call that succeeds initializes all three collaborators
once and latches; an unlatched call that fails calls only `_ip_startup`, warns
once, and does not latch — so later calls re-attempt and re-report. -/
theorem c4_startup_latched_on_success_only (s : StartupState) (ip : Bool) :
    (s.latched = true → _ih_startup ip s = (s.result, s, ⟨0, 0, 0, 0⟩)) ∧
    (s.latched = false → ip = true → _ih_startup ip s = (true, ⟨true, true⟩, ⟨1, 1, 1, 0⟩)) ∧
    (s.latched = false → ip = false →
      _ih_startup ip s = (false, ⟨false, false⟩, ⟨1, 0, 0, 1⟩)) := by
  refine ⟨fun h => ?_, fun h hip => ?_, fun h hip => ?_⟩
  · simp [_ih_startup, h]
  · simp [_ih_startup, h, hip]
  · simp [_ih_startup, h, hip]

/-- Witness for C4's theorem at concrete inputs: a first successful call from
the initial static state, and a call on an already-latched state. -/
theorem c4_startup_witness :
    _ih_startup true startup_initial = (true, ⟨true, true⟩, ⟨1, 1, 1, 0⟩) ∧
    _ih_startup false ⟨true, true⟩ = (true, ⟨true, true⟩, ⟨0, 0, 0, 0⟩) :=
  ⟨(c4_startup_latched_on_success_only startup_initial true).2.1 rfl rfl,
   (c4_startup_latched_on_success_only ⟨true, true⟩ false).1 rfl⟩

/-- C4 (counterexample): after a first `_ih_startup` whose `_ip_startup`
failed, a second failing call still performs one `_ip_startup` attempt and
prints one more warning — its effects are `⟨1, 0, 0, 1⟩`, not the `⟨0, 0, 0, 0⟩`
that "return the stored result without re-initializing or re-reporting"
requires, because the failure path never sets the latch. -/
theorem c4_counterexample_failure_not_latched :
    (_ih_startup false (_ih_startup false startup_initial).2.1).2.2 = ⟨1, 0, 0, 1⟩
      ∧ (_ih_startup false startup_initial).2.1.latched = false := by
  decide

/-- C5: `_ih_sub_cancel` is idempotent (an already-cancelled subscription is
left untouched with an empty mutation trace); otherwise it sets
`cancelled = true`, then removes the subscription from the missing-path
tracker, then from the kernel-watch set, in exactly that order; the cancelled
flag is monotonic; and for any state satisfying the data-model invariant the
subscription is afterwards in neither set, with the invariant preserved. -/
theorem c5_sub_cancel (e : SubEnv) :
    (e.sub.cancelled = true → _ih_sub_cancel e = (true, e, [])) ∧
    (e.sub.cancelled = false →
      _ih_sub_cancel e =
        (true, ⟨⟨e.sub.dirname, e.sub.filename, true, e.sub.user_data⟩, false, false⟩,
          [CancelOp.setCancelled, CancelOp.imRm, CancelOp.ipStop])) ∧
    (e.sub.cancelled = true → (_ih_sub_cancel e).2.1.sub.cancelled = true) ∧
    (sub_invariant e →
      (_ih_sub_cancel e).2.1.inWatchSet = false ∧
      (_ih_sub_cancel e).2.1.inMissingSet = false ∧
      sub_invariant (_ih_sub_cancel e).2.1) := by
  refine ⟨fun h => ?_, fun h => ?_, fun h => ?_, fun hinv => ?_⟩
  · simp [_ih_sub_cancel, h]
  · simp [_ih_sub_cancel, _im_rm, _ip_stop_watching, h]
  · simp [_ih_sub_cancel, h]
  · cases hc : e.sub.cancelled
    · simp [_ih_sub_cancel, _im_rm, _ip_stop_watching, sub_invariant, hc]
    · simpa [_ih_sub_cancel, hc] using ⟨(hinv hc).1, (hinv hc).2, hinv⟩

/-- Witness for C5's theorem: cancelling a live, watched subscription clears
both memberships and records the mutation order; cancelling an
already-cancelled subscription does nothing. -/
theorem c5_sub_cancel_witness :
    _ih_sub_cancel ⟨⟨"/d", none, false, MonitorTarget.dirMonitor⟩, true, false⟩ =
      (true, ⟨⟨"/d", none, true, MonitorTarget.dirMonitor⟩, false, false⟩,
        [CancelOp.setCancelled, CancelOp.imRm, CancelOp.ipStop]) ∧
    _ih_sub_cancel ⟨⟨"/d", none, true, MonitorTarget.dirMonitor⟩, false, false⟩ =
      (true, ⟨⟨"/d", none, true, MonitorTarget.dirMonitor⟩, false, false⟩, []) :=
  ⟨(c5_sub_cancel _).2.1 rfl, (c5_sub_cancel _).1 rfl⟩

/-- C7: `_ih_sub_add` always returns TRUE; when the kernel watch adapter
succeeds the subscription is live-watched, and when it fails the subscription
is registered with the missing-path tracker instead — neither outcome is an
error. -/
theorem c7_sub_add (ok : Bool) (e : SubEnv) :
    (_ih_sub_add ok e).1 = true ∧
    (ok = true → (_ih_sub_add ok e).2 = { e with inWatchSet := true }) ∧
    (ok = false → (_ih_sub_add ok e).2 = { e with inMissingSet := true }) := by
  cases ok <;> simp [_ih_sub_add, _ip_start_watching, _im_add]

/-- Witness for C7's theorem: a failed watch-start falls back to the
missing-path tracker and still returns TRUE. -/
theorem c7_sub_add_witness :
    (_ih_sub_add false ⟨⟨"/d", none, false, MonitorTarget.fileMonitor⟩, false, false⟩).1 = true ∧
    (_ih_sub_add false ⟨⟨"/d", none, false, MonitorTarget.fileMonitor⟩, false, false⟩).2 =
      ⟨⟨"/d", none, false, MonitorTarget.fileMonitor⟩, false, true⟩ :=
  ⟨(c7_sub_add false _).1, (c7_sub_add false _).2.2 rfl⟩

/-- C6: `ih_not_missing_callback` synthesizes a creation mask whose
translation is `CREATED`, with the is-directory flag set exactly when no
filename filter is present; in the filtered case it re-checks existence and
emits nothing when the entry is gone, and otherwise dispatches through the
same `monitor_dispatch` chain as `ih_event_callback`. -/
theorem c6_not_missing_dispatch (fs : String → Bool) (sub : inotify_sub) :
    ih_mask_to_EventFlags (ih_not_missing_mask sub) = .CREATED ∧
    (∀ fn, sub.filename = some fn →
      (fs (sub.dirname ++ "/" ++ fn) = false → ih_not_missing_callback fs sub = []) ∧
      (fs (sub.dirname ++ "/" ++ fn) = true →
        ih_not_missing_callback fs sub =
          monitor_dispatch sub.user_data (sub.dirname ++ "/" ++ fn)
            (ih_mask_to_EventFlags (ih_not_missing_mask sub))) ∧
      ih_not_missing_mask sub &&& IN_ISDIR = 0) ∧
    (sub.filename = none →
      ih_not_missing_callback fs sub =
        monitor_dispatch sub.user_data sub.dirname
          (ih_mask_to_EventFlags (ih_not_missing_mask sub)) ∧
      ih_not_missing_mask sub &&& IN_ISDIR = IN_ISDIR) := by
  rcases hf : sub.filename with _ | fn0
  · refine ⟨?_, fun fn h => ?_, fun _ => ⟨?_, ?_⟩⟩
    · simp only [ih_not_missing_mask, hf]
      decide
    · simp [hf] at h
    · simp [ih_not_missing_callback, ih_not_missing_mask, hf]
    · simp only [ih_not_missing_mask, hf]
      decide
  · refine ⟨?_, fun fn h => ?_, fun h => by simp [hf] at h⟩
    · simp only [ih_not_missing_mask, hf]
      decide
    · injection h with hfn
      subst hfn
      refine ⟨fun hgone => ?_, fun hthere => ?_, ?_⟩
      · simp [ih_not_missing_callback, hf, hgone]
      · simp [ih_not_missing_callback, ih_not_missing_mask, hf, hthere]
      · simp only [ih_not_missing_mask, hf]
        decide

/-- Witness for C6's theorem: a filtered subscription whose entry exists
dispatches the synthesized creation event; one whose entry is gone again
emits nothing. -/
theorem c6_not_missing_witness :
    ih_not_missing_callback (fun _ => true)
        ⟨"/d", some "f", false, MonitorTarget.dirMonitor⟩ =
      monitor_dispatch MonitorTarget.dirMonitor ("/d" ++ "/" ++ "f")
        (ih_mask_to_EventFlags
          (ih_not_missing_mask ⟨"/d", some "f", false, MonitorTarget.dirMonitor⟩)) ∧
    ih_not_missing_callback (fun _ => false)
        ⟨"/d", some "f", false, MonitorTarget.dirMonitor⟩ = [] :=
  ⟨((c6_not_missing_dispatch (fun _ => true) _).2.1 "f" rfl).2.1 rfl,
   ((c6_not_missing_dispatch (fun _ => false) _).2.1 "f" rfl).1 rfl⟩

/-- C10: when the subscription's target is neither a directory monitor nor a
file monitor, both the kernel-event path and the missing-path-resolution path
complete with no emission at all. -/
theorem c10_neither_monitor_silent (event : ik_event) (fs : String → Bool)
    (sub : inotify_sub) (h : sub.user_data = MonitorTarget.neither) :
    ih_event_callback event sub = [] ∧ ih_not_missing_callback fs sub = [] := by
  constructor
  · simp [ih_event_callback, h, monitor_dispatch]
  · rcases hf : sub.filename with _ | fn
    · simp [ih_not_missing_callback, hf, h, monitor_dispatch]
    · simp [ih_not_missing_callback, hf, h, monitor_dispatch]

/-- Witness for C10's theorem at a concrete event, filesystem and
subscription. -/
theorem c10_neither_monitor_witness :
    ih_event_callback ⟨IN_CREATE, some "f"⟩ ⟨"/d", some "f", false, MonitorTarget.neither⟩ = [] ∧
    ih_not_missing_callback (fun _ => true)
      ⟨"/d", some "f", false, MonitorTarget.neither⟩ = [] :=
  c10_neither_monitor_silent ⟨IN_CREATE, some "f"⟩ (fun _ => true) _ rfl

/-! ## Theorems for the cancellable stream -/

/-- C3 (evaluation at the failing input): when cancellation has fired before
the read syscall is attempted, `g_socket_input_stream_read` does store the
`Cancelled` error, but the value it returns is the never-assigned local `res`
(modelled as `none`, i.e. an indeterminate stack value) — not a determinate
error indication. Shown both with a wait-descriptor (the poll reports the
cancel fd ready) and without one, and even with data available to read. -/
theorem c3_cancelled_sync_read_returns_uninitialized :
    g_socket_input_stream_read true [SyscallRes.ok 2] true [SyscallRes.ok 5] =
      some ⟨none, some GErrorKind.cancelledErr⟩ ∧
    g_socket_input_stream_read false [] true [SyscallRes.ok 5] =
      some ⟨none, some GErrorKind.cancelledErr⟩ := by
  decide

/-- C8: in the synchronous read loop, an EINTR failure of the `read` syscall
is retried transparently (the loop's value is exactly its value on the
remaining outcomes, with no error surfaced), any other errno is surfaced as an
I/O error derived from it with `-1` returned, and any non-negative count —
zero included — is returned as the byte count with no error. -/
theorem c8_read_loop_eintr_retry_and_results (rest : List SyscallRes) (n e : Nat) :
    read_loop false (SyscallRes.err EINTR :: rest) = read_loop false rest ∧
    (e ≠ EINTR → read_loop false (SyscallRes.err e :: rest) =
      some ⟨some (-1), some (GErrorKind.ioFromErrno e)⟩) ∧
    read_loop false (SyscallRes.ok n :: rest) = some ⟨some (n : Int), none⟩ ∧
    read_loop false (SyscallRes.ok 0 :: rest) = some ⟨some 0, none⟩ := by
  refine ⟨?_, fun h => ?_, ?_, ?_⟩
  · simp [read_loop]
  · simp [read_loop, h]
  · simp [read_loop]
  · simp [read_loop]

/-- Witness for C8's theorem: one EINTR followed by an end-of-stream read
yields byte count 0 with no error; an EACCES-style errno 13 is surfaced. -/
theorem c8_read_loop_witness :
    read_loop false [SyscallRes.err EINTR, SyscallRes.ok 0] = some ⟨some 0, none⟩ ∧
    read_loop false [SyscallRes.err 13] =
      some ⟨some (-1), some (GErrorKind.ioFromErrno 13)⟩ := by
  constructor
  · rw [(c8_read_loop_eintr_retry_and_results [SyscallRes.ok 0] 0 13).1]
    exact (c8_read_loop_eintr_retry_and_results [] 0 13).2.2.2
  · exact (c8_read_loop_eintr_retry_and_results [] 0 13).2.1 (by decide)

/-- C9: with `close_fd_at_close = false`, `g_socket_input_stream_close`
returns success with no error, performs zero `close` syscalls, and leaves the
private state (in particular the `fd` field) unchanged; calling it a second
time on the resulting state is the same no-op. -/
theorem c9_close_noop_when_not_owning (s : GSocketInputStreamPrivate)
    (c1 c2 : SyscallRes) (h : s.close_fd_at_close = false) :
    g_socket_input_stream_close s c1 = (true, none, 0, s) ∧
    g_socket_input_stream_close (g_socket_input_stream_close s c1).2.2.2 c2 =
      (true, none, 0, s) := by
  simp [g_socket_input_stream_close, h]

/-- Witness for C9's theorem on a concrete handle with `fd = 7`, closed twice;
the embedded close syscall outcome is irrelevant and never consumed. -/
theorem c9_close_noop_witness :
    g_socket_input_stream_close ⟨7, false⟩ (SyscallRes.err 9) = (true, none, 0, ⟨7, false⟩) ∧
    g_socket_input_stream_close
        (g_socket_input_stream_close ⟨7, false⟩ (SyscallRes.err 9)).2.2.2 (SyscallRes.err 9) =
      (true, none, 0, ⟨7, false⟩) :=
  c9_close_noop_when_not_owning ⟨7, false⟩ (SyscallRes.err 9) (SyscallRes.err 9) rfl
